import Mathlib

/-!
Shallow embedding of `apiserver/plane/api/views/analytic.py` (Plane analytics
endpoints): data model, request parameters, and the five request handlers,
with the distribution builder `build_graph_plot` modelled from the spec
(its source file `plane/utils/analytics_plot.py` is not part of this excerpt).

Handlers are pure functions from the database, the request parameters and an
optional injected unexpected exception (modelling any runtime failure inside
the `try` body) to the HTTP response together with the side effects the module
performs: error reports (to sentry via `capture_exception`, or to stdout via
`print`) and enqueued export jobs.
-/

namespace Plane

/-- A calendar datetime at day precision; only the parts the analytics module
inspects. `TruncMonth` keeps the year and month. -/
structure Datetime where
  year : Nat
  month : Nat
  day : Nat
deriving DecidableEq, Repr

/-- Truncation of a datetime to its (year, month) bucket, as done by the
`TruncMonth` annotation in `DefaultAnalyticsEndpoint.get`. -/
def truncMonth (d : Datetime) : Nat × Nat := (d.year, d.month)

/-- An issue record with the relations the analytics module reads:
workspace (by slug), project, linked cycles and modules, state name/group,
labels, creator email, and the nullable completion timestamp. -/
structure Issue where
  id : Nat
  workspaceSlug : String
  projectId : Nat
  cycleIds : List Nat
  moduleIds : List Nat
  stateName : Option String
  stateGroup : Option String
  labels : List String
  createdByEmail : Option String
  completedAt : Option Datetime
deriving DecidableEq, Repr

/-- A workspace row: id and slug. -/
structure Workspace where
  id : Nat
  slug : String
deriving DecidableEq, Repr

/-- A state row: workspace scope, project, name, group and display color. -/
structure State where
  workspaceSlug : String
  projectId : Nat
  name : String
  group : String
  color : String
deriving DecidableEq, Repr

/-- A label row: workspace scope, project, name and display color. -/
structure Label where
  workspaceSlug : String
  projectId : Nat
  name : String
  color : String
deriving DecidableEq, Repr

/-- A saved analytic view: a stored filter (`query`, replayed against the
Issue collection) and the stored axis configuration (`query_dict`). -/
structure AnalyticView where
  id : Nat
  workspaceId : Nat
  workspaceSlug : String
  query : Issue → Bool
  queryXAxis : Option String
  queryYAxis : Option String

/-- The database state the module reads. -/
structure Database where
  issues : List Issue
  states : List State
  labels : List Label
  views : List AnalyticView
  workspaces : List Workspace

/-- An unexpected runtime exception (opaque to the handlers: only caught,
reported and turned into a generic response). -/
structure Exn where
  msg : String
deriving DecidableEq, Repr

/-- Where an exception caught at a handler boundary was reported:
`sentry e` models `capture_exception(e)`, `printed e` models `print(e)`. -/
inductive Report where
  | sentry (e : Exn)
  | printed (e : Exn)
deriving DecidableEq, Repr

/-- A distribution: a count per group key, where a key is the x-axis value
paired with the optional segment value. -/
abbrev Dist := List ((String × Option String) × Nat)

/-- Response bodies returned by the module's handlers. -/
inductive Body where
  | err (msg : String)
  | analytics (total : Nat) (distribution : Dist) (colors : List (String × String))
  | saved (total : Nat) (distribution : Dist)
  | message (msg : String)
  | defaultAnalytics (total_issues open_issues : Nat)
      (issue_completed_month_wise : List ((Nat × Nat) × Nat))
      (most_issue_created_user : List (String × Nat))
deriving DecidableEq, Repr

/-- An HTTP response: a body and a status code. -/
structure Response where
  body : Body
  status : Nat
deriving DecidableEq, Repr

/-- GET query parameters used by the analytics endpoints. `request.GET.get`
yields `none` for an absent key; repeated keys come as lists. -/
structure QueryParams where
  x_axis : Option String
  y_axis : Option String
  segment : Option String
  project_ids : List Nat
  cycle_ids : List Nat
  module_ids : List Nat
deriving DecidableEq, Repr

/-- Python truthiness of `request.GET.get(key, False)`: the default `False`
(absent key) and the empty string are falsy. -/
def falsy : Option String → Bool
  | none => true
  | some s => s.isEmpty

/-- The queryset built by `AnalyticsEndpoint.get` and
`DefaultAnalyticsEndpoint.get`: issues of the workspace named by the path
slug, then each of the project / cycle / module `__in` filters applied only
when its id list is nonempty. -/
def filterIssues (issues : List Issue) (slug : String)
    (project_ids cycle_ids module_ids : List Nat) : List Issue :=
  let q := issues.filter (fun i => decide (i.workspaceSlug = slug))
  let q := if project_ids.isEmpty then q
           else q.filter (fun i => decide (i.projectId ∈ project_ids))
  let q := if cycle_ids.isEmpty then q
           else q.filter (fun i => decide (∃ c ∈ i.cycleIds, c ∈ cycle_ids))
  let q := if module_ids.isEmpty then q
           else q.filter (fun i => decide (∃ m ∈ i.moduleIds, m ∈ module_ids))
  q

/-- Modelled from the spec: the value of an issue under a grouping dimension,
used by the distribution builder. `build_graph_plot` lives in
`plane/utils/analytics_plot.py`, which is not part of this excerpt; the spec
describes the builder as producing counts of issues grouped by one axis. A
null relation contributes the group "None". -/
def axisValue (axis : String) (i : Issue) : String :=
  if axis = "state__group" then i.stateGroup.getD "None"
  else if axis = "state__name" then i.stateName.getD "None"
  else if axis = "labels__name" then i.labels.headD "None"
  else if axis = "created_by__email" then i.createdByEmail.getD "None"
  else if axis = "project_id" then toString i.projectId
  else "None"

/-- Counts per distinct key of a key list. -/
def groupCounts {K : Type} [DecidableEq K] (keys : List K) : List (K × Nat) :=
  keys.dedup.map (fun k => (k, keys.count k))

/-- Modelled from the spec: `build_graph_plot` (from
`plane/utils/analytics_plot.py`, not in this excerpt) turns a filtered issue
collection and one or two grouping dimensions into counts per group,
optionally sub-segmented: each issue is counted under the pair of its x-axis
value and its optional segment value. The y-axis argument selects what is
displayed and does not change which issues are counted. -/
def build_graph_plot (queryset : List Issue) (x_axis : String) (y_axis : String)
    (segment : Option String) : Dist :=
  groupCounts (queryset.map (fun i =>
    (axisValue x_axis i, segment.map (fun s => axisValue s i))))

/-- Sum of the counts over all groups of a distribution. -/
def distTotal (d : Dist) : Nat := (d.map (fun g => g.2)).sum

/-- Color legend rows from the State table, keyed by name or group, scoped to
the workspace and (when project ids were supplied) to those projects. -/
def stateColors (states : List State) (slug : String) (key : String)
    (project_ids : List Nat) : List (String × String) :=
  (if project_ids.isEmpty then
      states.filter (fun s => decide (s.workspaceSlug = slug))
    else
      states.filter (fun s =>
        decide (s.workspaceSlug = slug ∧ s.projectId ∈ project_ids))).map
    (fun s => (if key = "name" then s.name else s.group, s.color))

/-- Color legend rows from the Label table, scoped like `stateColors`. -/
def labelColors (labels : List Label) (slug : String)
    (project_ids : List Nat) : List (String × String) :=
  (if project_ids.isEmpty then
      labels.filter (fun l => decide (l.workspaceSlug = slug))
    else
      labels.filter (fun l =>
        decide (l.workspaceSlug = slug ∧ l.projectId ∈ project_ids))).map
    (fun l => (l.name, l.color))

/-- `AnalyticsEndpoint.get`: validate the axes, build the filtered queryset,
return total, distribution and color extras; any unexpected exception is
captured to sentry and answered with the generic 400 body. -/
def AnalyticsEndpoint_get (boom : Option Exn) (db : Database)
    (req : QueryParams) (slug : String) : Response × List Report :=
  match boom with
  | some e =>
      (⟨.err "Something went wrong please try again later", 400⟩, [.sentry e])
  | none =>
      if falsy req.x_axis || falsy req.y_axis then
        (⟨.err "x-axis and y-axis dimensions are required", 400⟩, [])
      else
        let x := req.x_axis.getD ""
        let queryset :=
          filterIssues db.issues slug req.project_ids req.cycle_ids req.module_ids
        let total_issues := queryset.length
        let distribution :=
          build_graph_plot queryset x (req.y_axis.getD "")
            (if falsy req.segment then none else req.segment)
        let colors :=
          if x = "state__name" ∨ x = "state__group" then
            stateColors db.states slug (if x = "state__name" then "name" else "group")
              req.project_ids
          else if x = "labels__name" then
            labelColors db.labels slug req.project_ids
          else []
        (⟨.analytics total_issues distribution colors, 200⟩, [])

/-- `SavedAnalyticEndpoint.get`: look the view up by pk and workspace slug
(`DoesNotExist` is answered with its own 400 body), replay the stored filter,
validate the stored axes, and return total and distribution; any unexpected
exception is captured to sentry and answered with the generic 400 body. -/
def SavedAnalyticEndpoint_get (boom : Option Exn) (db : Database)
    (req : QueryParams) (slug : String) (analytic_id : Nat) :
    Response × List Report :=
  match boom with
  | some e =>
      (⟨.err "Something went wrong please try again later", 400⟩, [.sentry e])
  | none =>
      match db.views.find? (fun v => v.id == analytic_id && v.workspaceSlug == slug) with
      | none => (⟨.err "Analytic View Does not exist", 400⟩, [])
      | some analytic_view =>
          let queryset := db.issues.filter analytic_view.query
          if falsy analytic_view.queryXAxis || falsy analytic_view.queryYAxis then
            (⟨.err "x-axis and y-axis dimensions are required", 400⟩, [])
          else
            let distribution :=
              build_graph_plot queryset (analytic_view.queryXAxis.getD "")
                (analytic_view.queryYAxis.getD "")
                (if falsy req.segment then none else req.segment)
            (⟨.saved queryset.length distribution, 200⟩, [])

/-- The body of a POST to the export endpoint: the two axes plus the rest of
the raw payload, forwarded verbatim to the background task. -/
structure ExportPayload where
  x_axis : Option String
  y_axis : Option String
  rest : List (String × String)
deriving DecidableEq, Repr

/-- An enqueued `analytic_export_task.delay(...)` call: the requesting user's
email, the raw request payload, and the workspace slug. -/
structure ExportJob where
  email : String
  data : ExportPayload
  slug : String
deriving DecidableEq, Repr

/-- `ExportAnalyticsEndpoint.post`: validate the axes, enqueue exactly one
export job, and acknowledge with a message naming the user's email. The
handler never touches the issue store (`db` is passed but unused); any
unexpected exception is captured to sentry and answered generically. -/
def ExportAnalyticsEndpoint_post (boom : Option Exn) (db : Database)
    (user_email : String) (data : ExportPayload) (slug : String) :
    Response × List ExportJob × List Report :=
  match boom with
  | some e =>
      (⟨.err "Something went wrong please try again later", 400⟩, [], [.sentry e])
  | none =>
      if falsy data.x_axis || falsy data.y_axis then
        (⟨.err "x-axis and y-axis dimensions are required", 400⟩, [], [])
      else
        (⟨.message ("Once the export is ready it will be emailed to you at "
            ++ user_email), 200⟩,
         [⟨user_email, data, slug⟩], [])

/-- Descending order on creator rows by their issue count
(`order_by("-record_count")`). -/
def creatorsOrd (a b : String × Nat) : Prop := b.2 ≤ a.2

instance : DecidableRel creatorsOrd := fun a b => Nat.decLe b.2 a.2

instance : IsTotal (String × Nat) creatorsOrd :=
  ⟨fun a b => Nat.le_total b.2 a.2⟩

instance : IsTrans (String × Nat) creatorsOrd :=
  ⟨fun _ _ _ h1 h2 => Nat.le_trans h2 h1⟩

/-- Ascending order on month buckets (`order_by("month")`): lexicographic on
(year, month). -/
def monthOrd (a b : (Nat × Nat) × Nat) : Prop :=
  a.1.1 < b.1.1 ∨ (a.1.1 = b.1.1 ∧ a.1.2 ≤ b.1.2)

instance : DecidableRel monthOrd := fun a b => by
  unfold monthOrd; infer_instance

instance : IsTotal ((Nat × Nat) × Nat) monthOrd :=
  ⟨by intro a b; unfold monthOrd; omega⟩

instance : IsTrans ((Nat × Nat) × Nat) monthOrd :=
  ⟨by intro a b c; unfold monthOrd; omega⟩

/-- The fixed set of non-terminal state groups used for `open_issues`. -/
def openStateGroups : List String := ["backlog", "unstarted", "started"]

/-- `DefaultAnalyticsEndpoint.get`: build the filtered queryset and return
total issues, open issues (state group in the fixed non-terminal set,
null states excluded), completion counts bucketed by month ascending, and
creators with their issue counts descending (null creators excluded). An
unexpected exception is printed (not sent to sentry) and answered with the
generic 400 body. -/
def DefaultAnalyticsEndpoint_get (boom : Option Exn) (db : Database)
    (req : QueryParams) (slug : String) : Response × List Report :=
  match boom with
  | some e =>
      (⟨.err "Something went wrong please try again later", 400⟩, [.printed e])
  | none =>
      let queryset :=
        filterIssues db.issues slug req.project_ids req.cycle_ids req.module_ids
      let total_issues := queryset.length
      let open_issues :=
        (queryset.filter (fun i =>
          decide (∃ g ∈ openStateGroups, i.stateGroup = some g))).length
      let issue_completed_month_wise :=
        List.insertionSort monthOrd
          (groupCounts (queryset.filterMap (fun i => i.completedAt.map truncMonth)))
      let most_issue_created_user :=
        List.insertionSort creatorsOrd
          (groupCounts (queryset.filterMap (fun i => i.createdByEmail)))
      (⟨.defaultAnalytics total_issues open_issues
          issue_completed_month_wise most_issue_created_user, 200⟩, [])

/-- `AnalyticViewViewset.perform_create`: look the workspace up by the path
slug and save the serializer with `workspace_id` set from it; any workspace
id supplied in the request body (`body_workspace_id`) is ignored. `none`
models `Workspace.objects.get` raising when the slug is absent. -/
def AnalyticViewViewset_perform_create (workspaces : List Workspace)
    (slug : String) (body_workspace_id : Option Nat) (view_id : Nat)
    (q : Issue → Bool) (qx qy : Option String) : Option AnalyticView :=
  match workspaces.find? (fun w => w.slug == slug) with
  | none => none
  | some workspace =>
      some { id := view_id, workspaceId := workspace.id,
             workspaceSlug := workspace.slug, query := q,
             queryXAxis := qx, queryYAxis := qy }

/-! Concrete fixtures used by witnesses. -/

/-- An empty database. -/
def emptyDb : Database := ⟨[], [], [], [], []⟩

/-- A request supplying no parameters at all. -/
def noAxesReq : QueryParams := ⟨none, none, none, [], [], []⟩

/-- A request supplying both axes. -/
def axesReq : QueryParams :=
  ⟨some "state__group", some "issue_count", none, [], [], []⟩

/-- A sample issue in workspace "w". -/
def wIssue : Issue :=
  { id := 1, workspaceSlug := "w", projectId := 1, cycleIds := [],
    moduleIds := [], stateName := some "Backlog", stateGroup := some "backlog",
    labels := [], createdByEmail := some "a@x.com",
    completedAt := some ⟨2024, 3, 5⟩ }

/-- A sample workspace. -/
def wWorkspace : Workspace := ⟨5, "w"⟩

/-- A saved view in workspace "w" whose stored filter keeps everything. -/
def goodView : AnalyticView :=
  { id := 1, workspaceId := 5, workspaceSlug := "w", query := fun _ => true,
    queryXAxis := some "state__group", queryYAxis := some "issue_count" }

/-- A saved view belonging to a different workspace. -/
def otherView : AnalyticView :=
  { id := 2, workspaceId := 9, workspaceSlug := "other", query := fun _ => true,
    queryXAxis := some "state__group", queryYAxis := some "issue_count" }

/-- A database holding the sample issue, workspace and saved view. -/
def wdb : Database := ⟨[wIssue], [], [], [goodView], [wWorkspace]⟩

/-- A database whose only saved view belongs to another workspace. -/
def dbOther : Database := ⟨[], [], [], [otherView], []⟩

/-- An export payload with both axes present. -/
def wPayload : ExportPayload := ⟨some "state__group", some "issue_count", []⟩

/-- An export payload with no axes. -/
def noAxesPayload : ExportPayload := ⟨none, none, []⟩

/-! Claim theorems. -/

/-- Claim C1: a GET to AnalyticsEndpoint or a POST to ExportAnalyticsEndpoint
in which `x_axis` or `y_axis` is missing or falsy is answered (absent an
unexpected exception) with the exact validation error body and HTTP 400, and
whatever happens the status is 400, never a 500-class status. -/
theorem C1_missing_axes_validation (boom : Option Exn) (db : Database)
    (req : QueryParams) (slug user_email : String) (data : ExportPayload)
    (hg : (falsy req.x_axis || falsy req.y_axis) = true)
    (hp : (falsy data.x_axis || falsy data.y_axis) = true) :
    (boom = none → (AnalyticsEndpoint_get boom db req slug).1 =
      ⟨.err "x-axis and y-axis dimensions are required", 400⟩) ∧
    (AnalyticsEndpoint_get boom db req slug).1.status = 400 ∧
    (boom = none → (ExportAnalyticsEndpoint_post boom db user_email data slug).1 =
      ⟨.err "x-axis and y-axis dimensions are required", 400⟩) ∧
    (ExportAnalyticsEndpoint_post boom db user_email data slug).1.status = 400 := by
  cases boom with
  | none =>
      refine ⟨fun _ => ?_, ?_, fun _ => ?_, ?_⟩ <;>
        simp [AnalyticsEndpoint_get, ExportAnalyticsEndpoint_post, hg, hp]
  | some e =>
      refine ⟨fun hn => ?_, rfl, fun hn => ?_, rfl⟩ <;> cases hn

/-- Witness for C1 at a request and a payload with both axes absent. -/
theorem C1_witness :
    ((falsy noAxesReq.x_axis || falsy noAxesReq.y_axis) = true) ∧
    ((falsy noAxesPayload.x_axis || falsy noAxesPayload.y_axis) = true) ∧
    (AnalyticsEndpoint_get none emptyDb noAxesReq "w").1 =
      ⟨.err "x-axis and y-axis dimensions are required", 400⟩ :=
  ⟨rfl, rfl,
    (C1_missing_axes_validation none emptyDb noAxesReq "w" "u@x.com"
      noAxesPayload rfl rfl).1 rfl⟩

/-- Claim C6 counterexample: when an unexpected exception escapes the body of
DefaultAnalyticsEndpoint.get, it is printed, not reported to the
error-tracking collaborator (sentry), so the claim is false for that handler;
the generic 400 body is still returned. -/
theorem C6_counterexample :
    (DefaultAnalyticsEndpoint_get (some ⟨"db down"⟩) emptyDb noAxesReq "w").2 ≠
      [Report.sentry ⟨"db down"⟩] ∧
    (DefaultAnalyticsEndpoint_get (some ⟨"db down"⟩) emptyDb noAxesReq "w").2 =
      [Report.printed ⟨"db down"⟩] ∧
    (DefaultAnalyticsEndpoint_get (some ⟨"db down"⟩) emptyDb noAxesReq "w").1 =
      ⟨.err "Something went wrong please try again later", 400⟩ := by
  refine ⟨?_, rfl, rfl⟩
  decide

/-- Claim C6 (amended): on an unexpected exception every handler returns the
generic error body with status 400; AnalyticsEndpoint, SavedAnalyticEndpoint
and ExportAnalyticsEndpoint report the exception to the error-tracking
collaborator, while DefaultAnalyticsEndpoint prints it instead. -/
theorem C6_exception_boundary (e : Exn) (db : Database) (req : QueryParams)
    (slug user_email : String) (data : ExportPayload) (analytic_id : Nat) :
    AnalyticsEndpoint_get (some e) db req slug =
      (⟨.err "Something went wrong please try again later", 400⟩, [.sentry e]) ∧
    SavedAnalyticEndpoint_get (some e) db req slug analytic_id =
      (⟨.err "Something went wrong please try again later", 400⟩, [.sentry e]) ∧
    ExportAnalyticsEndpoint_post (some e) db user_email data slug =
      (⟨.err "Something went wrong please try again later", 400⟩, [], [.sentry e]) ∧
    DefaultAnalyticsEndpoint_get (some e) db req slug =
      (⟨.err "Something went wrong please try again later", 400⟩, [.printed e]) :=
  ⟨rfl, rfl, rfl, rfl⟩

/-- Claim C7: on create, the stored AnalyticView's workspace is the workspace
looked up from the path slug, whatever workspace id the request body carries
(the result does not depend on `body_workspace_id` at all). -/
theorem C7_create_workspace_from_slug (workspaces : List Workspace)
    (slug : String) (w : Workspace)
    (hw : workspaces.find? (fun x => x.slug == slug) = some w)
    (view_id : Nat) (q : Issue → Bool) (qx qy : Option String) :
    (∀ bid, (AnalyticViewViewset_perform_create workspaces slug bid view_id
        q qx qy).map (fun v => v.workspaceId) = some w.id) ∧
    (∀ bid bid',
      AnalyticViewViewset_perform_create workspaces slug bid view_id q qx qy =
      AnalyticViewViewset_perform_create workspaces slug bid' view_id q qx qy) := by
  constructor
  · intro bid
    simp [AnalyticViewViewset_perform_create, hw]
  · intro _ _
    rfl

/-- Witness for C7: with workspace 5 at slug "w", a create requesting
workspace 99 in the body is stored under workspace 5. -/
theorem C7_witness :
    ([wWorkspace].find? (fun x => x.slug == "w") = some wWorkspace) ∧
    (AnalyticViewViewset_perform_create [wWorkspace] "w" (some 99) 1
      (fun _ => true) none none).map (fun v => v.workspaceId) = some 5 :=
  ⟨rfl,
    (C7_create_workspace_from_slug [wWorkspace] "w" wWorkspace rfl 1
      (fun _ => true) none none).1 (some 99)⟩

/-- Claim C8: a POST to ExportAnalyticsEndpoint with both axes present
enqueues exactly one export job carrying the user's email, the raw payload
and the slug, answers 200 with a message naming that email, and its entire
result is independent of the database (no issue records are read). -/
theorem C8_export_enqueues_once (db : Database) (user_email : String)
    (data : ExportPayload) (slug : String)
    (hx : falsy data.x_axis = false) (hy : falsy data.y_axis = false) :
    (ExportAnalyticsEndpoint_post none db user_email data slug).1 =
      ⟨.message ("Once the export is ready it will be emailed to you at "
        ++ user_email), 200⟩ ∧
    (ExportAnalyticsEndpoint_post none db user_email data slug).2.1 =
      [⟨user_email, data, slug⟩] ∧
    (∀ db' boom, ExportAnalyticsEndpoint_post boom db' user_email data slug =
      ExportAnalyticsEndpoint_post boom db user_email data slug) := by
  refine ⟨?_, ?_, fun db' boom => rfl⟩ <;>
    simp [ExportAnalyticsEndpoint_post, hx, hy]

/-- Witness for C8 at a concrete payload with both axes present. -/
theorem C8_witness :
    (falsy wPayload.x_axis = false) ∧ (falsy wPayload.y_axis = false) ∧
    (ExportAnalyticsEndpoint_post none emptyDb "u@x.com" wPayload "w").2.1 =
      [⟨"u@x.com", wPayload, "w"⟩] :=
  ⟨rfl, rfl,
    (C8_export_enqueues_once emptyDb "u@x.com" wPayload "w" rfl rfl).2.1⟩

/-- Claim C3: when no saved view has the requested id in the workspace named
by the path slug, SavedAnalyticEndpoint answers the "does not exist" error
with status 400, and under no circumstances (exception or not) does it return
a saved-view data body. -/
theorem C3_saved_view_missing (db : Database) (req : QueryParams)
    (slug : String) (analytic_id : Nat)
    (h : ∀ v ∈ db.views, ¬(v.id = analytic_id ∧ v.workspaceSlug = slug)) :
    ((SavedAnalyticEndpoint_get none db req slug analytic_id).1 =
      ⟨.err "Analytic View Does not exist", 400⟩) ∧
    (∀ boom t d,
      (SavedAnalyticEndpoint_get boom db req slug analytic_id).1.body ≠
        .saved t d) := by
  have hf : db.views.find?
      (fun v => v.id == analytic_id && v.workspaceSlug == slug) = none := by
    apply List.find?_eq_none.mpr
    intro v hv
    have hne := h v hv
    simp only [Bool.and_eq_true, beq_iff_eq, not_and] at hne ⊢
    intro h1 h2
    exact hne h1 h2
  constructor
  · simp [SavedAnalyticEndpoint_get, hf]
  · intro boom t d
    cases boom with
    | none => simp [SavedAnalyticEndpoint_get, hf]
    | some e => simp [SavedAnalyticEndpoint_get]

/-- Witness for C3: looking up view id 1 in workspace "w" of a database whose
only saved view is view 2 of workspace "other" yields the error response. -/
theorem C3_witness :
    (∀ v ∈ dbOther.views, ¬(v.id = 1 ∧ v.workspaceSlug = "w")) ∧
    (SavedAnalyticEndpoint_get none dbOther noAxesReq "w" 1).1 =
      ⟨.err "Analytic View Does not exist", 400⟩ := by
  have h : ∀ v ∈ dbOther.views, ¬(v.id = 1 ∧ v.workspaceSlug = "w") := by
    intro v hv
    rcases List.mem_singleton.mp hv with rfl
    decide
  exact ⟨h, (C3_saved_view_missing dbOther noAxesReq "w" 1 h).1⟩

/-- Claim C5: the queryset built by AnalyticsEndpoint.get and
DefaultAnalyticsEndpoint.get restricts conjunctively: an issue is kept iff it
is in the workspace named by the slug, and, for each of the project / cycle /
module id lists that is nonempty, it matches that list too. -/
theorem C5_filters_conjunctive (issues : List Issue) (slug : String)
    (project_ids cycle_ids module_ids : List Nat) (i : Issue) :
    i ∈ filterIssues issues slug project_ids cycle_ids module_ids ↔
      i ∈ issues ∧ i.workspaceSlug = slug ∧
      (project_ids ≠ [] → i.projectId ∈ project_ids) ∧
      (cycle_ids ≠ [] → ∃ c ∈ i.cycleIds, c ∈ cycle_ids) ∧
      (module_ids ≠ [] → ∃ m ∈ i.moduleIds, m ∈ module_ids) := by
  unfold filterIssues
  rcases eq_or_ne project_ids [] with hp | hp <;>
    rcases eq_or_ne cycle_ids [] with hc | hc <;>
      rcases eq_or_ne module_ids [] with hm | hm <;>
        simp [hp, hc, hm, List.isEmpty_iff, List.mem_filter, and_assoc] <;>
          tauto

/-- Claim C4: in a successful DefaultAnalyticsEndpoint response, open_issues
is the number of filtered issues whose state group is one of backlog,
unstarted, started, and open_issues is at most total_issues. -/
theorem C4_open_issues_le_total (db : Database) (req : QueryParams)
    (slug : String) (t o : Nat) (mw : List ((Nat × Nat) × Nat))
    (tc : List (String × Nat))
    (h : (DefaultAnalyticsEndpoint_get none db req slug).1.body =
      .defaultAnalytics t o mw tc) :
    o = ((filterIssues db.issues slug req.project_ids req.cycle_ids
          req.module_ids).filter
        (fun i => decide (∃ g ∈ openStateGroups, i.stateGroup = some g))).length ∧
    o ≤ t := by
  simp only [DefaultAnalyticsEndpoint_get] at h
  injection h with h1 h2 h3 h4
  subst h1 h2
  exact ⟨rfl, List.length_filter_le _ _⟩

/-- Witness for C4 on the one-issue database: one open issue out of one. -/
theorem C4_witness :
    ((DefaultAnalyticsEndpoint_get none wdb noAxesReq "w").1.body =
      .defaultAnalytics 1 1 [((2024, 3), 1)] [("a@x.com", 1)]) ∧
    (1 : Nat) ≤ 1 := by
  have hb : (DefaultAnalyticsEndpoint_get none wdb noAxesReq "w").1.body =
      .defaultAnalytics 1 1 [((2024, 3), 1)] [("a@x.com", 1)] := by decide
  exact ⟨hb,
    (C4_open_issues_le_total wdb noAxesReq "w" 1 1 _ _ hb).2⟩

/-- The counts of `groupCounts` sum to the length of the key list. -/
theorem sum_groupCounts {K : Type} [DecidableEq K] (keys : List K) :
    ((groupCounts keys).map (fun g => g.2)).sum = keys.length := by
  unfold groupCounts
  rw [List.map_map]
  exact List.sum_map_count_dedup_eq_length keys

/-- The counts of a distribution built over a queryset sum to its size. -/
theorem distTotal_build_graph_plot (queryset : List Issue)
    (x_axis y_axis : String) (segment : Option String) :
    distTotal (build_graph_plot queryset x_axis y_axis segment) =
      queryset.length := by
  unfold distTotal build_graph_plot
  rw [sum_groupCounts, List.length_map]

/-- The group keys of `groupCounts` are the deduplicated key list. -/
theorem groupCounts_map_fst {K : Type} [DecidableEq K] (keys : List K) :
    (groupCounts keys).map (fun g => g.1) = keys.dedup := by
  unfold groupCounts
  rw [List.map_map]
  show List.map (fun k => k) keys.dedup = keys.dedup
  exact List.map_id' keys.dedup

/-- Month-bucket keys are one per issue with a non-null completion date. -/
theorem length_filterMap_completedAt (l : List Issue) :
    (l.filterMap (fun i => i.completedAt.map truncMonth)).length =
      (l.filter (fun i => i.completedAt.isSome)).length := by
  induction l with
  | nil => rfl
  | cons a l ih =>
      cases h : a.completedAt <;>
        simp [List.filterMap_cons, List.filter_cons, h, ih]

/-- Claim C2: in every successful AnalyticsEndpoint and SavedAnalyticEndpoint
response, the distribution counts summed over all returned groups and
sub-segments equal the returned total, the size of the filtered queryset. -/
theorem C2_distribution_sums_to_total (db : Database) (req : QueryParams)
    (slug : String) (analytic_id : Nat) :
    (∀ t d c, (AnalyticsEndpoint_get none db req slug).1.body =
        .analytics t d c → distTotal d = t) ∧
    (∀ t d, (SavedAnalyticEndpoint_get none db req slug analytic_id).1.body =
        .saved t d → distTotal d = t) := by
  constructor
  · intro t d c h
    simp only [AnalyticsEndpoint_get] at h
    by_cases hxy : (falsy req.x_axis || falsy req.y_axis) = true
    · rw [if_pos hxy] at h
      exact absurd h (by simp)
    · rw [if_neg hxy] at h
      injection h with h1 h2 h3
      subst h1 h2
      exact distTotal_build_graph_plot _ _ _ _
  · intro t d h
    cases hf : db.views.find?
        (fun v => v.id == analytic_id && v.workspaceSlug == slug) with
    | none =>
        simp [SavedAnalyticEndpoint_get, hf] at h
    | some v =>
        simp only [SavedAnalyticEndpoint_get, hf] at h
        by_cases hxy : (falsy v.queryXAxis || falsy v.queryYAxis) = true
        · rw [if_pos hxy] at h
          exact absurd h (by simp)
        · rw [if_neg hxy] at h
          injection h with h1 h2
          subst h1 h2
          exact distTotal_build_graph_plot _ _ _ _

/-- Witness for C2 on the one-issue database: the sole group counts 1 issue
and the total is 1. -/
theorem C2_witness :
    ((AnalyticsEndpoint_get none wdb axesReq "w").1.body =
      Body.analytics 1 [(("backlog", none), 1)] []) ∧
    distTotal [(("backlog", none), 1)] = 1 := by
  have hb : (AnalyticsEndpoint_get none wdb axesReq "w").1.body =
      Body.analytics 1 [(("backlog", none), 1)] [] := by decide
  exact ⟨hb,
    (C2_distribution_sums_to_total wdb axesReq "w" 1).1 1
      [(("backlog", none), 1)] [] hb⟩

/-- Claim C9: in every successful DefaultAnalyticsEndpoint response, the top
creator rows are in descending order of record_count: each entry's count is
at least the next entry's. -/
theorem C9_top_creators_sorted_desc (db : Database) (req : QueryParams)
    (slug : String) (t o : Nat) (mw : List ((Nat × Nat) × Nat))
    (tc : List (String × Nat))
    (h : (DefaultAnalyticsEndpoint_get none db req slug).1.body =
      .defaultAnalytics t o mw tc) :
    List.Chain' (fun a b : String × Nat => b.2 ≤ a.2) tc := by
  simp only [DefaultAnalyticsEndpoint_get] at h
  injection h with h1 h2 h3 h4
  subst h4
  exact (List.Pairwise.imp (fun hab => hab)
    (List.sorted_insertionSort creatorsOrd _)).chain'

/-- Witness for C9 on the one-issue database. -/
theorem C9_witness :
    ((DefaultAnalyticsEndpoint_get none wdb noAxesReq "w").1.body =
      .defaultAnalytics 1 1 [((2024, 3), 1)] [("a@x.com", 1)]) ∧
    List.Chain' (fun a b : String × Nat => b.2 ≤ a.2) [("a@x.com", 1)] := by
  have hb : (DefaultAnalyticsEndpoint_get none wdb noAxesReq "w").1.body =
      .defaultAnalytics 1 1 [((2024, 3), 1)] [("a@x.com", 1)] := by decide
  exact ⟨hb, C9_top_creators_sorted_desc wdb noAxesReq "w" 1 1 _ _ hb⟩

/-- Claim C10: in every successful DefaultAnalyticsEndpoint response, the
month-wise completion buckets have one entry per calendar month (no duplicate
month key), count exactly the filtered issues whose completion timestamp is
non-null (null completions contribute to no bucket), and are sorted by month
ascending. -/
theorem C10_month_wise_buckets (db : Database) (req : QueryParams)
    (slug : String) (t o : Nat) (mw : List ((Nat × Nat) × Nat))
    (tc : List (String × Nat))
    (h : (DefaultAnalyticsEndpoint_get none db req slug).1.body =
      .defaultAnalytics t o mw tc) :
    (mw.map (fun g => g.1)).Nodup ∧
    (mw.map (fun g => g.2)).sum =
      ((filterIssues db.issues slug req.project_ids req.cycle_ids
          req.module_ids).filter (fun i => i.completedAt.isSome)).length ∧
    List.Chain' (fun a b : (Nat × Nat) × Nat =>
      a.1.1 < b.1.1 ∨ (a.1.1 = b.1.1 ∧ a.1.2 ≤ b.1.2)) mw := by
  simp only [DefaultAnalyticsEndpoint_get] at h
  injection h with h1 h2 h3 h4
  subst h3
  have hperm := List.perm_insertionSort monthOrd
    (groupCounts ((filterIssues db.issues slug req.project_ids req.cycle_ids
      req.module_ids).filterMap (fun i => i.completedAt.map truncMonth)))
  refine ⟨?_, ?_, ?_⟩
  · refine ((hperm.map (fun g => g.1)).nodup_iff).mpr ?_
    rw [groupCounts_map_fst]
    exact List.nodup_dedup _
  · rw [(hperm.map (fun g => g.2)).sum_eq, sum_groupCounts,
      length_filterMap_completedAt]
  · exact (List.Pairwise.imp (fun hab => hab)
      (List.sorted_insertionSort monthOrd _)).chain'

/-- Witness for C10 on the one-issue database. -/
theorem C10_witness :
    ((DefaultAnalyticsEndpoint_get none wdb noAxesReq "w").1.body =
      .defaultAnalytics 1 1 [((2024, 3), 1)] [("a@x.com", 1)]) ∧
    ([((2024, 3), 1)].map (fun g => g.1)).Nodup := by
  have hb : (DefaultAnalyticsEndpoint_get none wdb noAxesReq "w").1.body =
      .defaultAnalytics 1 1 [((2024, 3), 1)] [("a@x.com", 1)] := by decide
  exact ⟨hb, (C10_month_wise_buckets wdb noAxesReq "w" 1 1 _ _ hb).1⟩

end Plane
